import Mathlib

/-!
Shallow embedding of the md-pgp-server core (src/main.rs, src/signature.rs).

Text values (SQLite TEXT columns, Rust Strings holding key ids and the
delimiter-encoded sharing list) are embedded as `List Char`.  The external
pgp crate (message parsing, key parsing, cryptographic verification) is
modelled by recording, per registration input, the outcomes the crate
reports for that input: the shape of the parsed message, the signature's
declared issuer list, the payload's parse as a public key, and the boolean
outcome of `signature.verify(key, payload)`.  The SQLite store is embedded
as in-memory lists of rows; `fetch_one` is filter-then-first, and a Rust
panic (an `unwrap` of a failed query, or an explicit `panic!`) is the
`panicked` constructor of the result type, carrying the store as of the
moment of the panic.
-/

namespace MdPgp

/-- Canonical textual identity: hex encoding of a key id (`key_id_to_text`). -/
abbrev Identity := List Char

/-- A character of the canonical lowercase hex encoding produced by `hex::encode`. -/
def isHexLowerChar (c : Char) : Bool :=
  (('0' ≤ c) && (c ≤ '9')) || (('a' ≤ c) && (c ≤ 'f'))

/-- A canonical identity string: nonempty, all lowercase hex characters. -/
def isIdentity (s : List Char) : Bool :=
  (!s.isEmpty) && s.all isHexLowerChar

/-! ### Sharing-list codec

`share_document` decodes the `shared_with` column by splitting on `,`
(guarded by `len() > 0`) and re-encodes the id vector with a fold that
joins entries with `,`.  These two inline snippets are the codec. -/

/-- One step of the encoding fold in `share_document`:
`if acc.len() == 0 { x } else { format!("{},{}", acc, x) }`. -/
def encStep (acc x : List Char) : List Char :=
  if acc.length == 0 then x else acc ++ ',' :: x

/-- The encoding fold in `share_document`: join entries with a single comma,
the empty list of entries encoding to the empty string. -/
def sharedEncode (ids : List (List Char)) : List Char :=
  ids.foldl encStep []

/-- The decoding in `share_document`: an empty string yields no entries
(the `len() > 0` guard); otherwise split on the comma, trimming nothing. -/
def sharedDecode (s : List Char) : List (List Char) :=
  if s.length > 0 then s.splitOn ',' else []

/-! ### Registration pipeline (`parse_create_account`, `insert_user`,
`handle_create_account`) -/

/-- What the pgp crate reports about the signature of a parsed message:
`sig.issuer()`, the list of declared issuer key ids (as canonical text). -/
structure SigInfo where
  issuers : List Identity
deriving DecidableEq

/-- What the pgp crate reports about a payload parsed as a public key:
`key.key_id()` in canonical text form, and `key.to_bytes()`. -/
structure KeyInfo where
  keyId : Identity
  keyBlob : List Nat
deriving DecidableEq

/-- The payload of a signed message, described by whether
`SignedPublicKey::from_bytes` parses it and as what. -/
structure PayloadInfo where
  keyParse : Option KeyInfo
deriving DecidableEq

/-- Outcome of `parse_message` on the raw bytes: `Message::from_bytes` or
`as_data_vec` failure, a message that is not Signed/SignedOnePass (or a
one-pass structure missing its signature packet), or a signed message. -/
inductive ParsedMessage where
  | malformed
  | unsigned
  | signed (sig : SigInfo) (payload : PayloadInfo)
deriving DecidableEq

/-- A registration input: the external crate's outcomes on the raw bytes.
`verifyOk` records whether `signature.verify(key, payload)` succeeds for
the signature and the key parsed from the payload. -/
structure RegInput where
  parsed : ParsedMessage
  verifyOk : Bool
deriving DecidableEq

/-- Terminal registration errors of the code: the anyhow errors of
`parse_create_account` (mapped to 400) and the UNIQUE-violation insert
failure (mapped to 409 "user already exists"). -/
inductive RegError where
  | MalformedMessage
  | UnsignedMessage
  | KeyParseError
  | SignatureInvalid
  | DuplicateIdentity
deriving DecidableEq

/-- `parse_create_account`: parse the message, parse the payload as a
public key, verify the signature against that key and the payload.  The
signature's issuer list is never consulted. -/
def parse_create_account (input : RegInput) : Except RegError KeyInfo :=
  match input.parsed with
  | .malformed => .error .MalformedMessage
  | .unsigned => .error .UnsignedMessage
  | .signed _sig payload =>
    match payload.keyParse with
    | none => .error .KeyParseError
    | some k => if input.verifyOk then .ok k else .error .SignatureInvalid

/-- A row of the `users` table: `uid TEXT PRIMARY KEY, key_blob BLOB`. -/
structure UserRow where
  uid : Identity
  key_blob : List Nat
deriving DecidableEq

/-- `insert_user`: `insert into users (uid, key_blob) values (?, ?)` with
`uid` a primary key, so a duplicate uid makes the insert fail with a
UNIQUE-constraint violation and change nothing. -/
def insert_user (users : List UserRow) (k : KeyInfo) : Except RegError (List UserRow) :=
  if users.any (fun r => r.uid == k.keyId) then .error .DuplicateIdentity
  else .ok (users ++ [⟨k.keyId, k.keyBlob⟩])

/-- `handle_create_account`: run `parse_create_account`, return its error
untouched (400) without touching the store; otherwise insert the user,
mapping a UNIQUE violation to the 409 "user already exists" response.
Returns the response together with the resulting `users` table. -/
def handle_create_account (users : List UserRow) (input : RegInput) :
    Except RegError Unit × List UserRow :=
  match parse_create_account input with
  | .error e => (.error e, users)
  | .ok k =>
    match insert_user users k with
    | .error e => (.error e, users)
    | .ok users2 => (.ok (), users2)

/-! ### Document store (`create_document`, `share_document`) -/

/-- A row of the `documents` table: `doc_id TEXT PRIMARY KEY, name TEXT,
user_id TEXT, shared_with TEXT`.  `shared_with` has no NOT NULL constraint
and no default, so it is an `Option`: `none` is SQL NULL.  The uuid text
of `doc_id` is abstracted as a `Nat` compared for equality. -/
structure DocRow where
  doc_id : Nat
  name : List Char
  user_id : Identity
  shared_with : Option (List Char)
deriving DecidableEq

/-- The SQLite store: the `users` and `documents` tables. -/
structure Db where
  users : List UserRow
  documents : List DocRow
deriving DecidableEq

/-- `fetch_one` of `select ... from documents where doc_id = ?`:
the first row whose primary key matches, if any. -/
def docFetch (db : Db) (d : Nat) : Option DocRow :=
  (db.documents.filter (fun r => r.doc_id == d)).head?

/-- `fetch_one` of `select uid from users where uid = ?`:
the first row whose uid matches, if any. -/
def userFetch (db : Db) (g : Identity) : Option UserRow :=
  (db.users.filter (fun r => r.uid == g)).head?

/-- `update documents set shared_with = ? where doc_id = ?`. -/
def updateSharedWith (db : Db) (d : Nat) (s : List Char) : Db :=
  { db with
    documents := db.documents.map
      (fun r => if r.doc_id == d then { r with shared_with := some s } else r) }

/-- `create_document`: `insert into documents (doc_id, name, user_id)
values (?, ?, ?)` — the insert names no `shared_with` column, so the new
row's `shared_with` is NULL.  The generated `Uuid::now_v7()` is passed in
as the fresh id `id`. -/
def create_document (db : Db) (id : Nat) (owner_key_id : Identity) (doc_name : List Char) : Db :=
  { db with documents := db.documents ++ [⟨id, doc_name, owner_key_id, none⟩] }

/-- Outcome of a `share_document` call: normal completion with the
resulting store, or a Rust panic (an `unwrap` of a failed query or decode,
or an explicit `panic!`), carrying the store as of the panic. -/
inductive ShareResult where
  | ok (db : Db)
  | panicked (msg : String) (db : Db)
deriving DecidableEq

/-- `share_document`, step by step as in the source: fetch the document row
(`unwrap` panics when there is none); `panic!("not owner")` when its
`user_id` differs from the requester; fetch the grantee's `users` row
(`unwrap` panics when there is none); `panic!("user does not exist")` when
that row's uid differs from the grantee; fetch `shared_with` (`row.get`
panics when the column is NULL, since a NULL cannot decode as a String);
decode it, push the grantee unconditionally, re-encode, and write the
updated string back. -/
def share_document (db : Db) (doc_id : Nat) (owner_key_id user_key_id : Identity) :
    ShareResult :=
  match docFetch db doc_id with
  | none => .panicked "RowNotFound" db
  | some doc_row =>
    if doc_row.user_id ≠ owner_key_id then .panicked "not owner" db
    else
      match userFetch db user_key_id with
      | none => .panicked "RowNotFound" db
      | some users_row =>
        if users_row.uid ≠ user_key_id then .panicked "user does not exist" db
        else
          match docFetch db doc_id with
          | none => .panicked "RowNotFound" db
          | some shared_row =>
            match shared_row.shared_with with
            | none => .panicked "UnexpectedNullError" db
            | some shared_with =>
              let shared_ids := sharedDecode shared_with ++ [user_key_id]
              .ok (updateSharedWith db doc_id (sharedEncode shared_ids))

/-! ### Codec lemmas -/

lemma encStep_of_ne_nil (acc x : List Char) (h : acc ≠ []) :
    encStep acc x = acc ++ ',' :: x := by
  unfold encStep
  rw [if_neg]
  simp [List.length_eq_zero, h]

lemma foldl_encStep_of_ne_nil (tl : List (List Char)) :
    ∀ acc : List Char, acc ≠ [] →
      tl.foldl encStep acc = acc ++ (tl.map (fun x => ',' :: x)).flatten := by
  induction tl with
  | nil => intro acc _; simp
  | cons x tl ih =>
    intro acc h
    rw [List.foldl_cons, encStep_of_ne_nil acc x h, ih _ (by simp)]
    simp

lemma sharedEncode_cons (hd : List Char) (tl : List (List Char)) (h : hd ≠ []) :
    sharedEncode (hd :: tl) = hd ++ (tl.map (fun x => ',' :: x)).flatten := by
  unfold sharedEncode
  rw [List.foldl_cons]
  have hstep : encStep [] hd = hd := rfl
  rw [hstep, foldl_encStep_of_ne_nil tl hd h]

lemma sharedEncode_cons_cons (hd hd2 : List Char) (tl : List (List Char))
    (h : hd ≠ []) (h2 : hd2 ≠ []) :
    sharedEncode (hd :: hd2 :: tl) = hd ++ ',' :: sharedEncode (hd2 :: tl) := by
  rw [sharedEncode_cons _ _ h, sharedEncode_cons _ _ h2]
  simp

lemma sharedEncode_ne_nil (hd : List Char) (tl : List (List Char)) (h : hd ≠ []) :
    sharedEncode (hd :: tl) ≠ [] := by
  rw [sharedEncode_cons _ _ h]
  simp [h]

lemma splitOn_eq_single_of_not_mem (s : List Char) (h : ',' ∉ s) :
    s.splitOn ',' = [s] := by
  unfold List.splitOn
  apply List.splitOnP_eq_single
  intro x hx
  simp only [beq_iff_eq]
  intro hxe
  exact h (hxe ▸ hx)

/-- The decode directions of the codec invert the encode fold on lists of
nonempty, comma-free entries. -/
lemma sharedDecode_encode : ∀ L : List (List Char),
    (∀ l ∈ L, l ≠ [] ∧ ',' ∉ l) → sharedDecode (sharedEncode L) = L
  | [], _ => rfl
  | [hd], h => by
    have hhd := h hd (by simp)
    rw [sharedEncode_cons hd [] hhd.1]
    simp only [List.map_nil, List.flatten_nil, List.append_nil]
    unfold sharedDecode
    rw [if_pos (List.length_pos.mpr hhd.1), splitOn_eq_single_of_not_mem hd hhd.2]
  | hd :: hd2 :: tl, h => by
    have hhd := h hd (by simp)
    have hhd2 := h hd2 (by simp)
    have ih := sharedDecode_encode (hd2 :: tl) (fun l hl => h l (by simp [hl]))
    have hne := sharedEncode_ne_nil hd2 tl hhd2.1
    unfold sharedDecode at ih
    rw [if_pos (List.length_pos.mpr hne)] at ih
    rw [sharedEncode_cons_cons hd hd2 tl hhd.1 hhd2.1]
    unfold sharedDecode
    rw [if_pos (by simp)]
    unfold List.splitOn at ih ⊢
    rw [List.splitOnP_first _ hd ?notmem ',' (by simp) _, ih]
    case notmem =>
      intro x hx
      simp only [beq_iff_eq]
      intro hxe
      exact hhd.2 (hxe ▸ hx)

/-- A canonical identity is nonempty and cannot contain the delimiter. -/
lemma isIdentity_ne_nil_not_mem (s : List Char) (h : isIdentity s = true) :
    s ≠ [] ∧ ',' ∉ s := by
  unfold isIdentity at h
  simp only [Bool.and_eq_true, Bool.not_eq_true', List.isEmpty_eq_false_iff_exists_mem,
    List.all_eq_true] at h
  constructor
  · rcases h.1 with ⟨x, hx⟩
    intro hnil
    rw [hnil] at hx
    exact (List.not_mem_nil x) hx
  · intro hmem
    have := h.2 ',' hmem
    simp [isHexLowerChar] at this

/-! ### Branch lemmas for `share_document` -/

lemma share_docMissing (db : Db) (d : Nat) (r g : Identity)
    (h : docFetch db d = none) :
    share_document db d r g = .panicked "RowNotFound" db := by
  unfold share_document
  rw [h]

lemma share_notOwner (db : Db) (d : Nat) (r g : Identity) (row : DocRow)
    (h : docFetch db d = some row) (ho : row.user_id ≠ r) :
    share_document db d r g = .panicked "not owner" db := by
  unfold share_document
  rw [h]
  simp [ho]

lemma share_granteeMissing (db : Db) (d : Nat) (r g : Identity) (row : DocRow)
    (h : docFetch db d = some row) (ho : row.user_id = r) (hg : userFetch db g = none) :
    share_document db d r g = .panicked "RowNotFound" db := by
  unfold share_document
  rw [h]
  simp [ho, hg]

/-- The grantee query filters on `r.uid == g`, so any row it returns has
uid exactly `g` (SQLite TEXT equality under the default BINARY collation
is byte equality). -/
lemma filter_head_uid (l : List UserRow) (g : Identity) (row : UserRow)
    (h : (l.filter (fun r => r.uid == g)).head? = some row) : row.uid = g := by
  have hmem : row ∈ l.filter (fun r => r.uid == g) := by
    cases hf : l.filter (fun r => r.uid == g) with
    | nil => rw [hf] at h; exact absurd h (by simp)
    | cons a t =>
      rw [hf] at h
      have ha : a = row := by injection h
      exact ha ▸ List.mem_cons_self a t
  have := (List.mem_filter.mp hmem).2
  simpa using this

lemma userFetch_uid (db : Db) (g : Identity) (row : UserRow)
    (h : userFetch db g = some row) : row.uid = g :=
  filter_head_uid db.users g row h

lemma share_nullShared (db : Db) (d : Nat) (r g : Identity) (row : DocRow) (urow : UserRow)
    (h : docFetch db d = some row) (ho : row.user_id = r)
    (hu : userFetch db g = some urow) (hsw : row.shared_with = none) :
    share_document db d r g = .panicked "UnexpectedNullError" db := by
  unfold share_document
  rw [h]
  simp [ho, hu, userFetch_uid db g urow hu, hsw]

lemma share_success (db : Db) (d : Nat) (r g : Identity) (row : DocRow) (urow : UserRow)
    (s : List Char) (h : docFetch db d = some row) (ho : row.user_id = r)
    (hu : userFetch db g = some urow) (hsw : row.shared_with = some s) :
    share_document db d r g =
      .ok (updateSharedWith db d (sharedEncode (sharedDecode s ++ [g]))) := by
  unfold share_document
  rw [h]
  simp [ho, hu, userFetch_uid db g urow hu, hsw]

/-! ### Store lemmas -/

lemma filterHead_update (l : List DocRow) (d : Nat) (s : List Char) :
    ((l.map (fun r => if r.doc_id == d then { r with shared_with := some s } else r)).filter
        (fun r => r.doc_id == d)).head?
      = ((l.filter (fun r => r.doc_id == d)).head?).map
          (fun r => { r with shared_with := some s }) := by
  induction l with
  | nil => rfl
  | cons a l ih =>
    by_cases hid : (a.doc_id == d) = true
    · rw [List.map_cons, if_pos hid, List.filter_cons, List.filter_cons, if_pos hid, if_pos hid]
      rfl
    · rw [List.map_cons, if_neg hid, List.filter_cons, List.filter_cons, if_neg hid, if_neg hid]
      exact ih

lemma docFetch_updateSharedWith (db : Db) (d : Nat) (s : List Char) :
    docFetch (updateSharedWith db d s) d
      = (docFetch db d).map (fun r => { r with shared_with := some s }) :=
  filterHead_update db.documents d s

lemma docFetch_create_fresh (db : Db) (id : Nat) (o : Identity) (n : List Char)
    (hfresh : ∀ r ∈ db.documents, r.doc_id ≠ id) :
    docFetch (create_document db id o n) id = some ⟨id, n, o, none⟩ := by
  unfold docFetch create_document
  rw [show ({ db with documents := db.documents ++ [⟨id, n, o, none⟩] } : Db).documents
      = db.documents ++ [⟨id, n, o, none⟩] from rfl]
  rw [List.filter_append]
  have h1 : db.documents.filter (fun r => r.doc_id == id) = [] := by
    rw [List.filter_eq_nil_iff]
    intro a ha
    simp [hfresh a ha]
  rw [h1]
  simp

/-- Any panicking run of `share_document` leaves the store exactly as it
was: the only write (the `update` of `shared_with`) comes after every
check, so a panic carries the original store. -/
lemma share_panicked_preserves (db : Db) (d : Nat) (r g : Identity) (msg : String)
    (db' : Db) (h : share_document db d r g = .panicked msg db') : db' = db := by
  cases hdoc : docFetch db d with
  | none =>
    rw [share_docMissing db d r g hdoc] at h
    injection h with h1 h2
    exact h2.symm
  | some row =>
    by_cases ho : row.user_id = r
    · cases hu : userFetch db g with
      | none =>
        rw [share_granteeMissing db d r g row hdoc ho hu] at h
        injection h with h1 h2
        exact h2.symm
      | some urow =>
        cases hsw : row.shared_with with
        | none =>
          rw [share_nullShared db d r g row urow hdoc ho hu hsw] at h
          injection h with h1 h2
          exact h2.symm
        | some s =>
          rw [share_success db d r g row urow s hdoc ho hu hsw] at h
          exact ShareResult.noConfusion h
    · rw [share_notOwner db d r g row hdoc ho] at h
      injection h with h1 h2
      exact h2.symm

/-- No run of `share_document` ever reaches the `panic!("user does not
exist")` branch: the row returned by the grantee query always has the
queried uid. -/
lemma share_never_user_not_exist (db : Db) (d : Nat) (r g : Identity) (msg : String)
    (db' : Db) (h : share_document db d r g = .panicked msg db') :
    msg ≠ "user does not exist" := by
  cases hdoc : docFetch db d with
  | none =>
    rw [share_docMissing db d r g hdoc] at h
    injection h with h1 h2
    rw [← h1]
    decide
  | some row =>
    by_cases ho : row.user_id = r
    · cases hu : userFetch db g with
      | none =>
        rw [share_granteeMissing db d r g row hdoc ho hu] at h
        injection h with h1 h2
        rw [← h1]
        decide
      | some urow =>
        cases hsw : row.shared_with with
        | none =>
          rw [share_nullShared db d r g row urow hdoc ho hu hsw] at h
          injection h with h1 h2
          rw [← h1]
          decide
        | some s =>
          rw [share_success db d r g row urow s hdoc ho hu hsw] at h
          exact ShareResult.noConfusion h
    · rw [share_notOwner db d r g row hdoc ho] at h
      injection h with h1 h2
      rw [← h1]
      decide

/-! ### Concrete fixtures -/

/-- Identity of a first key (canonical lowercase hex). -/
def idA : Identity := ['a', 'a']

/-- Identity of a second key. -/
def idB : Identity := ['b', 'b']

/-- Identity of a third key, registered to no account in the fixtures. -/
def idC : Identity := ['c', 'c']

/-- A registration input whose signature declares issuer `idA` while the
payload parses as the key with identity `idB`, and whose signature
nevertheless verifies against the payload key (the issuer subpackets are
unauthenticated metadata). -/
def regInputMismatch : RegInput :=
  { parsed := .signed ⟨[idA]⟩ ⟨some ⟨idB, [7]⟩⟩, verifyOk := true }

/-- A registration input whose signature declares no issuer at all, with a
payload parsing as the key `idB` and a verifying signature. -/
def regInputNoIssuer : RegInput :=
  { parsed := .signed ⟨[]⟩ ⟨some ⟨idB, [7]⟩⟩, verifyOk := true }

/-- A structurally invalid registration input. -/
def regInputMalformed : RegInput := { parsed := .malformed, verifyOk := true }

/-- A well-formed self-signed registration input for the key `idB`. -/
def regInputGood : RegInput :=
  { parsed := .signed ⟨[idB]⟩ ⟨some ⟨idB, [7]⟩⟩, verifyOk := true }

/-- A store with accounts for `idA` and `idB` and one document (id 0)
owned by `idA` whose `shared_with` holds the empty string. -/
def dbShare : Db :=
  { users := [⟨idA, [1]⟩, ⟨idB, [2]⟩],
    documents := [⟨0, ['n'], idA, some []⟩] }

/-- `dbShare` after one `share_document 0 idA idB`. -/
def dbShare1 : Db :=
  { users := [⟨idA, [1]⟩, ⟨idB, [2]⟩],
    documents := [⟨0, ['n'], idA, some ['b', 'b']⟩] }

/-- `dbShare` after two `share_document 0 idA idB` calls. -/
def dbShare2 : Db :=
  { users := [⟨idA, [1]⟩, ⟨idB, [2]⟩],
    documents := [⟨0, ['n'], idA, some ['b', 'b', ',', 'b', 'b']⟩] }

/-- A store with accounts for `idA` and `idB` and no documents. -/
def dbUsersOnly : Db :=
  { users := [⟨idA, [1]⟩, ⟨idB, [2]⟩], documents := [] }

/-! ### Claim theorems -/

/-- Claim C1.  The code has no issuer/payload-key consistency check: on an
input whose signature declares issuer `idA` while the payload parses as
the key `idB` (with `idA ≠ idB`) and the signature verifies against the
payload key, registration succeeds and creates an account for `idB`,
instead of failing with `SignatureInvalid` or `IssuerKeyMismatch` as the
claim requires.  (`message_keyid` is imported in main.rs but never called
from the registration path.) -/
theorem register_accepts_issuer_key_mismatch :
    regInputMismatch.parsed = .signed ⟨[idA]⟩ ⟨some ⟨idB, [7]⟩⟩ ∧
    idA ≠ idB ∧
    regInputMismatch.verifyOk = true ∧
    handle_create_account [] regInputMismatch = (.ok (), [⟨idB, [7]⟩]) :=
  ⟨rfl, by decide, rfl, rfl⟩

/-- Claim C4.  The registration path never inspects the signature's issuer
list: an input whose signature declares zero issuers is not rejected with
`AmbiguousIssuer`; it registers successfully whenever the payload key
parses and the signature verifies.  (`message_keyid`, which implements the
sole-issuer check, is imported in main.rs but never called.) -/
theorem register_accepts_zero_issuers :
    regInputNoIssuer.parsed = .signed ⟨[]⟩ ⟨some ⟨idB, [7]⟩⟩ ∧
    handle_create_account [] regInputNoIssuer = (.ok (), [⟨idB, [7]⟩]) :=
  ⟨rfl, rfl⟩

/-- Claim C5.  A second registration for an identity that already has a
stored account fails with the duplicate-identity error (the UNIQUE
constraint on `users.uid`, surfaced as 409 "user already exists"), and the
`users` table — including the stored `key_blob` for that identity — is
left exactly unchanged. -/
theorem register_duplicate_identity_rejected (users : List UserRow) (input : RegInput)
    (k : KeyInfo) (hp : parse_create_account input = .ok k)
    (hdup : users.any (fun r => r.uid == k.keyId) = true) :
    handle_create_account users input = (.error .DuplicateIdentity, users) := by
  simp [handle_create_account, insert_user, hp, hdup]

/-- Witness for claim C5 at a concrete store already holding `idB`. -/
theorem register_duplicate_identity_rejected_witness :
    handle_create_account [⟨idB, [7]⟩] regInputGood = (.error .DuplicateIdentity, [⟨idB, [7]⟩]) :=
  register_duplicate_identity_rejected [⟨idB, [7]⟩] regInputGood ⟨idB, [7]⟩ rfl rfl

/-- Claim C9.  When `parse_create_account` fails (malformed message,
unsigned message, key parse failure, or invalid signature), the handler
returns that error and the `users` store is exactly as it was: no side
effect happens before the insert step. -/
theorem register_validation_failure_pure (users : List UserRow) (input : RegInput)
    (e : RegError) (h : parse_create_account input = .error e) :
    handle_create_account users input = (.error e, users) := by
  simp [handle_create_account, h]

/-- Witness for claim C9 on a malformed input against a nonempty store. -/
theorem register_validation_failure_pure_witness :
    handle_create_account [⟨idB, [7]⟩] regInputMalformed
      = (.error .MalformedMessage, [⟨idB, [7]⟩]) :=
  register_validation_failure_pure [⟨idB, [7]⟩] regInputMalformed .MalformedMessage rfl

/-- Claim C2, counterexample.  At a concrete store where document 0 is
owned by `idA`, a share request by the non-owner `idB` does not return a
typed `NotOwner` error value: the call aborts, panicking with
"not owner". -/
theorem share_not_owner_aborts_cex :
    share_document dbShare 0 idB idB = .panicked "not owner" dbShare := rfl

/-- Claim C2 (amended).  `share_document` aborts instead of returning
typed errors: when `doc_id` has no row it panics unwrapping the failed
document fetch; when the requester differs from the document's owner it
panics with "not owner" (regardless of the grantee); when the grantee has
no registered account it panics unwrapping the failed `users` fetch. -/
theorem share_failure_panics (db : Db) (d : Nat) (r g : Identity) :
    (docFetch db d = none → share_document db d r g = .panicked "RowNotFound" db) ∧
    (∀ row : DocRow, docFetch db d = some row → row.user_id ≠ r →
      share_document db d r g = .panicked "not owner" db) ∧
    (∀ row : DocRow, docFetch db d = some row → row.user_id = r → userFetch db g = none →
      share_document db d r g = .panicked "RowNotFound" db) :=
  ⟨fun h => share_docMissing db d r g h,
   fun row h ho => share_notOwner db d r g row h ho,
   fun row h ho hg => share_granteeMissing db d r g row h ho hg⟩

/-- Witness for claim C2 (amended): the non-owner case at a concrete
store. -/
theorem share_failure_panics_witness :
    share_document dbShare 0 idC idB = .panicked "not owner" dbShare :=
  (share_failure_panics dbShare 0 idC idB).2.1 ⟨0, ['n'], idA, some []⟩ rfl (by decide)

/-- Claim C7.  Whenever `share_document` fails (panics) — unknown
document, non-owner requester, unregistered grantee, or the NULL
`shared_with` decode — the store, and so every document's `shared_with`,
is exactly as it was before the call: the single write comes after all
checks, so no partial write occurs. -/
theorem share_failure_leaves_store_unchanged (db : Db) (d : Nat) (r g : Identity)
    (msg : String) (db' : Db) (h : share_document db d r g = .panicked msg db') :
    db' = db :=
  share_panicked_preserves db d r g msg db' h

/-- Witness for claim C7: a concrete failed share (non-owner requester)
carries back the untouched store. -/
theorem share_failure_leaves_store_unchanged_witness : dbShare = dbShare :=
  share_failure_leaves_store_unchanged dbShare 0 idC idB "not owner" dbShare rfl

/-- Claim C10.  Any row returned by the grantee query
(`select uid from users where uid = ?`) has uid equal to the queried key
id, so the subsequent inequality check and its `panic!("user does not
exist")` branch are unreachable — no run of `share_document` ever panics
with that message; an unregistered grantee instead makes the row fetch
itself fail (the unwrap of the row-not-found error) before the check is
evaluated. -/
theorem grantee_row_check_unreachable :
    (∀ (users : List UserRow) (g : Identity) (row : UserRow),
      (users.filter (fun r => r.uid == g)).head? = some row → row.uid = g) ∧
    (∀ (db : Db) (d : Nat) (r g : Identity) (msg : String) (db' : Db),
      share_document db d r g = .panicked msg db' → msg ≠ "user does not exist") ∧
    (∀ (db : Db) (d : Nat) (r g : Identity) (row : DocRow),
      docFetch db d = some row → row.user_id = r → userFetch db g = none →
      share_document db d r g = .panicked "RowNotFound" db) :=
  ⟨fun users g row h => filter_head_uid users g row h,
   fun db d r g msg db' h => share_never_user_not_exist db d r g msg db' h,
   fun db d r g row h ho hg => share_granteeMissing db d r g row h ho hg⟩

/-- Witness for claim C10: the grantee query at a concrete store returns
the row whose uid is the queried id. -/
theorem grantee_row_check_unreachable_witness :
    (⟨idB, [2]⟩ : UserRow).uid = idB :=
  grantee_row_check_unreachable.1 [⟨idA, [1]⟩, ⟨idB, [2]⟩] idB ⟨idB, [2]⟩ rfl

/-- Claim C3, counterexample.  At a concrete store where document 0 is
owned by `idA`, grantee `idB` is registered, and `shared_with` holds the
empty string, two successive `share_document 0 idA idB` calls both succeed
but do not yield the state of a single call: the second call appends a
duplicate, leaving a `shared_with` that decodes to `idB` twice. -/
theorem share_twice_not_idempotent_cex :
    share_document dbShare 0 idA idB = .ok dbShare1 ∧
    share_document dbShare1 0 idA idB = .ok dbShare2 ∧
    dbShare2 ≠ dbShare1 ∧
    sharedDecode ['b', 'b', ',', 'b', 'b'] = [idB, idB] :=
  ⟨rfl, rfl, by decide, by decide⟩

/-- Claim C3 (amended).  A successful share appends the grantee to
`shared_with` unconditionally — there is no membership check: starting
from a document whose `shared_with` column holds a string of identities,
two successive `share(doc, owner, grantee)` calls both succeed and yield a
`shared_with` that decodes to the previous list with the grantee appended
twice (a duplicate entry), not the result of a single call. -/
theorem share_twice_appends_twice (db : Db) (d : Nat) (o g : Identity) (row : DocRow)
    (urow : UserRow) (s : List Char)
    (hdoc : docFetch db d = some row) (ho : row.user_id = o)
    (hu : userFetch db g = some urow) (hsw : row.shared_with = some s)
    (hids : ∀ l ∈ sharedDecode s, isIdentity l = true) (hg : isIdentity g = true) :
    ∃ db1 db2,
      share_document db d o g = .ok db1 ∧
      share_document db1 d o g = .ok db2 ∧
      docFetch db1 d
        = some { row with shared_with := some (sharedEncode (sharedDecode s ++ [g])) } ∧
      docFetch db2 d
        = some { row with shared_with := some (sharedEncode (sharedDecode s ++ [g, g])) } ∧
      sharedDecode (sharedEncode (sharedDecode s ++ [g, g]))
        = sharedDecode s ++ [g, g] := by
  have hgprop := isIdentity_ne_nil_not_mem g hg
  have hprop1 : ∀ l ∈ sharedDecode s ++ [g], l ≠ [] ∧ ',' ∉ l := by
    intro l hl
    rcases List.mem_append.mp hl with hl1 | hl2
    · exact isIdentity_ne_nil_not_mem l (hids l hl1)
    · rw [List.mem_singleton.mp hl2]
      exact hgprop
  have hprop2 : ∀ l ∈ sharedDecode s ++ [g, g], l ≠ [] ∧ ',' ∉ l := by
    intro l hl
    rcases List.mem_append.mp hl with hl1 | hl2
    · exact isIdentity_ne_nil_not_mem l (hids l hl1)
    · rcases List.mem_cons.mp hl2 with h1 | h2
      · rw [h1]
        exact hgprop
      · rw [List.mem_singleton.mp h2]
        exact hgprop
  have h1 : share_document db d o g
      = .ok (updateSharedWith db d (sharedEncode (sharedDecode s ++ [g]))) :=
    share_success db d o g row urow s hdoc ho hu hsw
  have hdoc1 : docFetch (updateSharedWith db d (sharedEncode (sharedDecode s ++ [g]))) d
      = some { row with shared_with := some (sharedEncode (sharedDecode s ++ [g])) } := by
    rw [docFetch_updateSharedWith, hdoc]
    rfl
  have hu1 : userFetch (updateSharedWith db d (sharedEncode (sharedDecode s ++ [g]))) g
      = some urow := hu
  have hrt1 : sharedDecode (sharedEncode (sharedDecode s ++ [g])) = sharedDecode s ++ [g] :=
    sharedDecode_encode _ hprop1
  have h2 : share_document (updateSharedWith db d (sharedEncode (sharedDecode s ++ [g]))) d o g
      = .ok (updateSharedWith (updateSharedWith db d (sharedEncode (sharedDecode s ++ [g]))) d
          (sharedEncode (sharedDecode (sharedEncode (sharedDecode s ++ [g])) ++ [g]))) :=
    share_success _ d o g _ urow _ hdoc1 ho hu1 rfl
  rw [hrt1, List.append_assoc] at h2
  have hdoc2 : docFetch
      (updateSharedWith (updateSharedWith db d (sharedEncode (sharedDecode s ++ [g]))) d
        (sharedEncode (sharedDecode s ++ [g, g]))) d
      = some { row with shared_with := some (sharedEncode (sharedDecode s ++ [g, g])) } := by
    rw [docFetch_updateSharedWith, hdoc1]
    rfl
  exact ⟨_, _, h1, h2, hdoc1, hdoc2, sharedDecode_encode _ hprop2⟩

/-- Witness for claim C3 (amended) at the concrete store `dbShare`. -/
theorem share_twice_appends_twice_witness :
    ∃ db1 db2,
      share_document dbShare 0 idA idB = .ok db1 ∧
      share_document db1 0 idA idB = .ok db2 ∧
      docFetch db1 0
        = some ⟨0, ['n'], idA, some (sharedEncode (sharedDecode [] ++ [idB]))⟩ ∧
      docFetch db2 0
        = some ⟨0, ['n'], idA, some (sharedEncode (sharedDecode [] ++ [idB, idB]))⟩ ∧
      sharedDecode (sharedEncode (sharedDecode [] ++ [idB, idB]))
        = sharedDecode [] ++ [idB, idB] :=
  share_twice_appends_twice dbShare 0 idA idB ⟨0, ['n'], idA, some []⟩ ⟨idB, [2]⟩ []
    rfl rfl rfl rfl (by decide) (by decide)

/-- Claim C6.  `create_document` persists {doc_id, name, owner} but leaves
`shared_with` NULL (`none`), not the empty sequence: the insert names no
`shared_with` column.  Consequently the very next share of the freshly
created document by its owner to a registered grantee panics decoding the
NULL `shared_with` as a String, instead of reading an empty list. -/
theorem create_document_leaves_shared_with_null (db : Db) (id : Nat) (o g : Identity)
    (n : List Char) (urow : UserRow)
    (hfresh : ∀ r ∈ db.documents, r.doc_id ≠ id)
    (hu : userFetch db g = some urow) :
    docFetch (create_document db id o n) id = some ⟨id, n, o, none⟩ ∧
    share_document (create_document db id o n) id o g =
      .panicked "UnexpectedNullError" (create_document db id o n) := by
  have hdoc := docFetch_create_fresh db id o n hfresh
  have hu2 : userFetch (create_document db id o n) g = some urow := hu
  exact ⟨hdoc, share_nullShared _ id o g _ urow hdoc rfl hu2 rfl⟩

/-- Witness for claim C6: a fresh document at a concrete store, shared by
its owner `idA` to the registered grantee `idB`. -/
theorem create_document_leaves_shared_with_null_witness :
    docFetch (create_document dbUsersOnly 5 idA ['n']) 5 = some ⟨5, ['n'], idA, none⟩ ∧
    share_document (create_document dbUsersOnly 5 idA ['n']) 5 idA idB =
      .panicked "UnexpectedNullError" (create_document dbUsersOnly 5 idA ['n']) :=
  create_document_leaves_shared_with_null dbUsersOnly 5 idA idB ['n'] ⟨idB, [2]⟩
    (by simp [dbUsersOnly]) rfl

/-- Claim C8.  The sharing-list codec round-trips: the empty list encodes
to the empty string, the empty string decodes to the empty list, and for
every duplicate-free ordered list of canonical identities, decoding the
comma-joined encoding yields the list back unchanged. -/
theorem sharing_codec_round_trip :
    sharedEncode [] = [] ∧ sharedDecode [] = [] ∧
    ∀ L : List (List Char), L.Nodup → (∀ l ∈ L, isIdentity l = true) →
      sharedDecode (sharedEncode L) = L :=
  ⟨rfl, rfl,
   fun L _ h => sharedDecode_encode L (fun l hl => isIdentity_ne_nil_not_mem l (h l hl))⟩

/-- Witness for claim C8 on the concrete two-identity list. -/
theorem sharing_codec_round_trip_witness :
    sharedDecode (sharedEncode [idA, idB]) = [idA, idB] :=
  sharing_codec_round_trip.2.2 [idA, idB] (by decide) (by decide)

end MdPgp
